import Mathlib

/-!
Verification of the "symbolize" instrumentation pass (src/Symbolize.cpp).

The development is a shallow embedding of the pass: LLVM values, types and
instructions become Lean inductives, and each visitor method of the
`Symbolizer` class becomes a Lean function that transforms an explicit
emission state (the per-function shadow map `symbolicExpressions`, the list
of inserted shadow instructions with their insertion positions, the warning
diagnostics printed to `errs()`, and a counter supplying fresh SSA names for
inserted instructions).  Failure of an `assert` or an `llvm_unreachable` in
the C++ source is modelled as `Option.none`.

Notes on the embedding:
* All LLVM pointer types collapse to a single `MTy.ptr`: the pass only ever
  distinguishes pointer types from non-pointer types, and every shadow
  handle has type `i8*`.
* `IRB.CreateBitCast`/`CreateZExt` applied where source and destination
  types coincide are the identity (LLVM folds them); the embedding performs
  the corresponding constant folding directly when building argument lists.
* Constant-expression forms of GEP and bitcast (`GEPOperator`,
  `BitCastOperator` on constants) delegate in the source to the same
  `handleGEPOperator`/`handleBitCastOperator` used for the instruction
  forms; the embedding models those handlers once, at the instruction
  level, and the value universe contains no constant-expression nodes.
* `errs()` diagnostics print the offending instruction as well; the
  embedding keeps only the fixed message prefix.
-/

namespace Symbolize

/-- MIR/LLVM types, as far as the pass inspects them.  `ptr` stands for every
pointer type (in particular for `i8*`, the type of symbolic-expression
handles); `float` stands for the floating-point types (single-value types
that are neither integers nor pointers); `other` covers types that are not
single-value, array or struct types (functions, void used as a value type,
metadata, ...). -/
inductive MTy where
  | int (w : Nat)
  | ptr
  | float
  | arr (n : Nat) (elt : MTy)
  | strct (fields : List MTy)
  | void
  | other

mutual

/-- `expressionType` (Symbolize.cpp, lines 88-109): the type used to store
the symbolic shadow of a value of the given type.  Single-value types map to
`i8*`; arrays and structs map structurally; anything else hits
`llvm_unreachable`, modelled as `none`. -/
def expressionType : MTy → Option MTy
  | .int _ => some .ptr
  | .ptr => some .ptr
  | .float => some .ptr
  | .arr n t =>
      match expressionType t with
      | some t2 => some (.arr n t2)
      | none => none
  | .strct fs =>
      match expressionTypeList fs with
      | some fs2 => some (.strct fs2)
      | none => none
  | .void => none
  | .other => none

/-- Field-wise `expressionType` over the subtypes of a struct. -/
def expressionTypeList : List MTy → Option (List MTy)
  | [] => some []
  | t :: ts =>
      match expressionType t with
      | some t2 =>
          match expressionTypeList ts with
          | some ts2 => some (t2 :: ts2)
          | none => none
      | none => none
end

/-!  Names of the runtime-ABI functions, exactly as the strings passed to
`M.getOrInsertFunction` in `SymbolizePass::doInitialization`. -/

def buildIntegerName : String := "_sym_build_integer"

def buildNullPointerName : String := "_sym_build_null_pointer"

def buildNegName : String := "_sym_build_neg"

def buildSExtName : String := "_sym_build_sext"

def buildZExtName : String := "_sym_build_zext"

def buildTruncName : String := "_sym_build_trunc"

def pushPathConstraintName : String := "_sym_push_path_constraint"

def setParameterExpressionName : String := "_sym_set_parameter_expression"

def getParameterExpressionName : String := "_sym_get_parameter_expression"

def setReturnExpressionName : String := "_sym_set_return_expression"

def getReturnExpressionName : String := "_sym_get_return_expression"

def buildAddName : String := "_sym_build_add"

def buildSubName : String := "_sym_build_sub"

def buildMulName : String := "_sym_build_mul"

def buildUDivName : String := "_sym_build_unsigned_div"

def buildSDivName : String := "_sym_build_signed_div"

def buildURemName : String := "_sym_build_unsigned_rem"

def buildSRemName : String := "_sym_build_signed_rem"

def buildShlName : String := "_sym_build_shift_left"

def buildLShrName : String := "_sym_build_logical_shift_right"

def buildAShrName : String := "_sym_build_arithmetic_shift_right"

def buildAndName : String := "_sym_build_and"

def buildOrName : String := "_sym_build_or"

def buildXorName : String := "_sym_build_xor"

def buildEqualName : String := "_sym_build_equal"

def buildNotEqualName : String := "_sym_build_not_equal"

def buildUGTName : String := "_sym_build_unsigned_greater_than"

def buildUGEName : String := "_sym_build_unsigned_greater_equal"

def buildULTName : String := "_sym_build_unsigned_less_than"

def buildULEName : String := "_sym_build_unsigned_less_equal"

def buildSGTName : String := "_sym_build_signed_greater_than"

def buildSGEName : String := "_sym_build_signed_greater_equal"

def buildSLTName : String := "_sym_build_signed_less_than"

def buildSLEName : String := "_sym_build_signed_less_equal"

def initializeArray8Name : String := "_sym_initialize_array_8"

def initializeArray16Name : String := "_sym_initialize_array_16"

def initializeArray32Name : String := "_sym_initialize_array_32"

def initializeArray64Name : String := "_sym_initialize_array_64"

def symMemcpyName : String := "_sym_memcpy"

def symBuildVariableName : String := "_sym_build_variable"

/-- The reserved runtime marker checked by `startswith` in `visitCallInst`. -/
def symMarker : String := "_sym_"

/-- The suffix appended to a global's name for its shadow global. -/
def shadowSuffix : String := ".sym_expr"

/-- `callee->getName().startswith("_sym_")`, computed on the character
lists underlying the strings. -/
def startsWithSym (name : String) : Bool :=
  symMarker.data.isPrefixOf name.data

/-!  Diagnostics printed to `errs()`.  Only the fixed prefix of each message
is kept; the source additionally prints the offending instruction or type. -/

def warningIndirectCall : String :=
  "Warning: losing track of symbolic expressions at indirect call "

def warningUnhandledIntrinsic (callee : String) : String :=
  "Warning: unhandled LLVM intrinsic " ++ callee

def warningStackArrays : String :=
  "Warning: stack-allocated arrays are not supported yet"

def warningUnhandledCast : String :=
  "Warning: unhandled cast instruction "

def warningUnknownInstruction : String :=
  "Warning: unknown instruction "

/-- SSA values of the function being instrumented, as the pass tells them
apart.  `inst` is the result of an original instruction, `arg` a function
argument (`llvm::Argument`, by index), `constInt` a `ConstantInt` (bit
width and zero-extended numeric value), `nullPtr` a `ConstantPointerNull`,
`globalRef` any other `GlobalValue` (global variable or function, by name),
`ptrToInt` the folded constant `ptrtoint` of such a global, and `shadow`
the result of an instruction inserted by the pass itself. -/
inductive Value where
  | inst (id : Nat)
  | arg (i : Nat)
  | constInt (w : Nat) (v : Nat)
  | nullPtr
  | globalRef (name : String)
  | ptrToInt (name : String)
  | shadow (id : Nat)
deriving DecidableEq, Repr

/-- Where an inserted instruction is placed.  `entry` is the entry block's
first non-φ position (`getFirstNonPHI`), `before id` is immediately before
the original instruction `id`, and `after id` is at the next non-debug
instruction following `id`. -/
inductive Pos where
  | entry
  | before (id : Nat)
  | after (id : Nat)
deriving DecidableEq, Repr

/-- An instruction inserted by the pass: a call to a module function, or
the shadow stack slot created by `visitAllocaInst`. -/
inductive ShadowInst where
  | call (result : Value) (callee : String) (args : List Value) (pos : Pos)
  | allocaInst (result : Value) (allocatedType : MTy) (pos : Pos)

/-- The mutable state of one `Symbolizer` run over a function: the
`symbolicExpressions` map (an association list, most recent entry first, as
with `ValueMap` overwrite semantics), the shadow instructions inserted so
far in emission order, the diagnostics printed so far, and the supply of
names for inserted instructions. -/
structure EmitState where
  cache : List (Value × Value)
  out : List ShadowInst
  warnings : List String
  nextId : Nat

/-- The empty state at the start of `runOnFunction`. -/
def emptyState : EmitState := { cache := [], out := [], warnings := [], nextId := 0 }

/-- `symbolicExpressions.find(V)`. -/
def lookupAssoc : List (Value × Value) → Value → Option Value
  | [], _ => none
  | (k, e) :: rest, v => if k = v then some e else lookupAssoc rest v

/-- Shadow-map lookup. -/
def cacheGet (s : EmitState) (v : Value) : Option Value :=
  lookupAssoc s.cache v

/-- `symbolicExpressions[V] = e` (overwrites any previous binding). -/
def cacheSet (s : EmitState) (v e : Value) : EmitState :=
  { s with cache := (v, e) :: s.cache }

/-- `IRB.CreateCall(f, args)` at the given position: appends the call and
returns the fresh value naming its result. -/
def emitCall (s : EmitState) (callee : String) (args : List Value) (pos : Pos) :
    Value × EmitState :=
  (Value.shadow s.nextId,
   { s with
     out := s.out ++ [ShadowInst.call (Value.shadow s.nextId) callee args pos],
     nextId := s.nextId + 1 })

/-- `IRB.CreateAlloca(ty)` at the given position. -/
def emitAlloca (s : EmitState) (ty : MTy) (pos : Pos) : Value × EmitState :=
  (Value.shadow s.nextId,
   { s with
     out := s.out ++ [ShadowInst.allocaInst (Value.shadow s.nextId) ty pos],
     nextId := s.nextId + 1 })

/-- `errs() << msg`. -/
def warn (s : EmitState) (msg : String) : EmitState :=
  { s with warnings := s.warnings ++ [msg] }

/-- `Symbolizer::getOrCreateSymbolicExpression` (lines 116-166).  `pb` is
`SP.ptrBits`, `pos` the insertion point of the builder passed in (`IRB`).
The cache is consulted first; `ConstantInt`s are built at the entry block
and cached; arguments and global addresses are built at `pos` and cached;
the null-pointer constant is built at `pos` and deliberately *not* cached
(the source returns before the cache update); any other value without a
cached expression trips `assert(!"No symbolic expression for value")`,
modelled as `none`. -/
def getOrCreateSymbolicExpression (pb : Nat) (V : Value) (pos : Pos)
    (s : EmitState) : Option (Value × EmitState) :=
  match cacheGet s V with
  | some e => some (e, s)
  | none =>
    match V with
    | .constInt w v =>
        let p := emitCall s buildIntegerName
          [Value.constInt 64 v, Value.constInt 8 w] Pos.entry
        some (p.1, cacheSet p.2 (Value.constInt w v) p.1)
    | .arg i =>
        let p := emitCall s getParameterExpressionName [Value.constInt 8 i] pos
        some (p.1, cacheSet p.2 (Value.arg i) p.1)
    | .globalRef g =>
        let p := emitCall s buildIntegerName
          [Value.ptrToInt g, Value.constInt 8 pb] pos
        some (p.1, cacheSet p.2 (Value.globalRef g) p.1)
    | .nullPtr =>
        let p := emitCall s buildNullPointerName [] pos
        some (p.1, p.2)
    | _ => none

/-- LLVM binary-operator opcodes (`Instruction::BinaryOps`): the thirteen
integer opcodes for which `doInitialization` installs a handler, and the
floating-point opcodes, for which the handler table entry stays null. -/
inductive BinOp where
  | add | sub | mul | udiv | sdiv | urem | srem
  | shl | lshr | ashr | and | or | xor
  | fadd | fsub | fmul | fdiv | frem
deriving DecidableEq, Repr

/-- `SP.binaryOperatorHandlers`, as filled by the
`LOAD_BINARY_OPERATOR_HANDLER` block of `doInitialization`; entries for
floating-point opcodes are never written and remain null (`none`). -/
def binaryOperatorHandlers : BinOp → Option String
  | .add => some buildAddName
  | .sub => some buildSubName
  | .mul => some buildMulName
  | .udiv => some buildUDivName
  | .sdiv => some buildSDivName
  | .urem => some buildURemName
  | .srem => some buildSRemName
  | .shl => some buildShlName
  | .lshr => some buildLShrName
  | .ashr => some buildAShrName
  | .and => some buildAndName
  | .or => some buildOrName
  | .xor => some buildXorName
  | _ => none

/-- One step of the `gep_type_begin`/`gep_type_end` iteration in
`handleGEPOperator`, together with the data-layout figures the step reads:
indexing a struct presents the (necessarily constant) member index and the
member's byte offset from the struct layout; indexing an array or pointer
presents the index operand and `getTypeAllocSize` of the indexed type. -/
inductive GepIdx where
  | structField (memberIndex : Nat) (memberOffset : Nat)
  | arrayIdx (index : Value) (elementSize : Nat)
deriving DecidableEq, Repr

/-- `dyn_cast<ConstantInt>(index); ci && ci->isZero()` — the fast-path test
for a zero array index. -/
def isConstZero : Value → Bool
  | .constInt _ v => v == 0
  | _ => false

/-- `dyn_cast<ConstantInt>(size); size && size->isOne()` — the test applied
to the array size of an `alloca`. -/
def isConstOne : Value → Bool
  | .constInt _ v => v == 1
  | _ => false

/-- The loop body of `Symbolizer::handleGEPOperator` (lines 188-227),
folding over the iterator steps with the running symbolic address `expr`.
Struct members contribute `build_integer(memberOffset, ptrBits)` added to
`expr`; array indices contribute nothing when the index is the constant
zero, and otherwise `build_mul(resolve(index), build_integer(elementSize,
ptrBits))` added to `expr`.  `pointerSizeValue` is the 64-bit constant
`SP.ptrBits` (line 186). -/
def handleGEPIndices (pb : Nat) (pos : Pos) (expr : Value) :
    List GepIdx → EmitState → Option (Value × EmitState)
  | [], s => some (expr, s)
  | .structField _k off :: rest, s =>
      let p1 := emitCall s buildIntegerName
        [Value.constInt 64 off, Value.constInt 64 pb] pos
      let p2 := emitCall p1.2 buildAddName [expr, p1.1] pos
      handleGEPIndices pb pos p2.1 rest p2.2
  | .arrayIdx i esz :: rest, s =>
      if isConstZero i then handleGEPIndices pb pos expr rest s
      else
        let p1 := emitCall s buildIntegerName
          [Value.constInt 64 esz, Value.constInt 64 pb] pos
        match getOrCreateSymbolicExpression pb i pos p1.2 with
        | none => none
        | some (idxExpr, s2) =>
            let p2 := emitCall s2 buildMulName [idxExpr, p1.1] pos
            let p3 := emitCall p2.2 buildAddName [expr, p2.1] pos
            handleGEPIndices pb pos p3.1 rest p3.2

/-- `Symbolizer::handleGEPOperator` (lines 179-230): start from the
symbolic expression of the pointer operand and fold over the indices. -/
def handleGEPOperator (pb : Nat) (base : Value) (idxs : List GepIdx)
    (pos : Pos) (s : EmitState) : Option (Value × EmitState) :=
  match getOrCreateSymbolicExpression pb base pos s with
  | none => none
  | some (e, s1) => handleGEPIndices pb pos e idxs s1

/-- `Symbolizer::handleBitCastOperator` (lines 173-177): asserts that both
sides are pointers, then the shadow is the operand's shadow unchanged. -/
def handleBitCastOperator (pb : Nat) (v : Value) (srcIsPtr dstIsPtr : Bool)
    (pos : Pos) (s : EmitState) : Option (Value × EmitState) :=
  if srcIsPtr && dstIsPtr then getOrCreateSymbolicExpression pb v pos s
  else none

/-- The cast opcodes that reach `Symbolizer::visitCastInst` — every
`CastInst` except `trunc` and `bitcast`, which have dedicated visitors. -/
inductive CastOp where
  | sext | zext
  | fptoui | fptosi | uitofp | sitofp
  | fpext | fptruncOp | ptrtoint | inttoptr | addrspacecast
deriving DecidableEq, Repr

/-- LLVM intrinsic identity of a called function, when it has one. -/
inductive Intrinsic where
  | lifetimeStart
  | lifetimeEnd
  | memcpy
  | otherIntr
deriving DecidableEq, Repr

/-- A direct callee: its name and, when the function is an intrinsic, its
intrinsic identity. -/
structure Callee where
  name : String
  intr : Option Intrinsic

/-- The instructions of the function under instrumentation, restricted to
the forms the claims under verification exercise.  `id` is the SSA name of
the instruction's result (its `Value.inst` identity).  `call` carries the
callee (or `none` for an indirect call), the argument operands and the
callee's return type; `alloca` carries the allocated type and the array
size operand; `other` stands for any instruction without a dedicated
visitor, which `InstVisitor` routes to the fallback `visitInstruction`. -/
inductive Instr where
  | binop (id : Nat) (op : BinOp) (a b : Value)
  | gep (id : Nat) (base : Value) (idxs : List GepIdx)
  | trunc (id : Nat) (v : Value) (dstW : Nat)
  | cast (id : Nat) (op : CastOp) (v : Value) (srcW dstW : Nat)
  | bitcast (id : Nat) (v : Value) (srcIsPtr dstIsPtr : Bool)
  | call (id : Nat) (callee : Option Callee) (args : List Value) (retTy : MTy)
  | alloca (id : Nat) (allocatedType : MTy) (arraySize : Value)
  | other (id : Nat)

/-- `Symbolizer::visitBinaryOperator` (lines 236-245): look the opcode up
in the handler table; a null handler fails `assert(handler && "Unable to
handle binary operator")` (`none`); otherwise resolve both operands and
emit the handler call, recording its result as the instruction's shadow. -/
def visitBinaryOperator (pb id : Nat) (op : BinOp) (a b : Value)
    (s : EmitState) : Option EmitState :=
  match binaryOperatorHandlers op with
  | none => none
  | some handler =>
      match getOrCreateSymbolicExpression pb a (Pos.before id) s with
      | none => none
      | some (ea, s1) =>
          match getOrCreateSymbolicExpression pb b (Pos.before id) s1 with
          | none => none
          | some (eb, s2) =>
              let p := emitCall s2 handler [ea, eb] (Pos.before id)
              some (cacheSet p.2 (Value.inst id) p.1)

/-- `Symbolizer::visitGetElementPtrInst` (lines 384-387). -/
def visitGetElementPtrInst (pb id : Nat) (base : Value) (idxs : List GepIdx)
    (s : EmitState) : Option EmitState :=
  match handleGEPOperator pb base idxs (Pos.before id) s with
  | none => none
  | some (e, s1) => some (cacheSet s1 (Value.inst id) e)

/-- `Symbolizer::visitBitCastInst` (lines 389-393). -/
def visitBitCastInst (pb id : Nat) (v : Value) (srcIsPtr dstIsPtr : Bool)
    (s : EmitState) : Option EmitState :=
  match handleBitCastOperator pb v srcIsPtr dstIsPtr (Pos.before id) s with
  | none => none
  | some (e, s1) => some (cacheSet s1 (Value.inst id) e)

/-- `Symbolizer::visitTruncInst` (lines 395-400): emits
`_sym_build_trunc(I.getOperand(0), getInt8(destBitWidth))` —
note that the first argument is the instruction's *concrete* operand
(`I.getOperand(0)`), not the operand's symbolic expression. -/
def visitTruncInst (id : Nat) (v : Value) (dstW : Nat) (s : EmitState) :
    EmitState :=
  let p := emitCall s buildTruncName [v, Value.constInt 8 dstW] (Pos.before id)
  cacheSet p.2 (Value.inst id) p.1

/-- `Symbolizer::visitCastInst` (lines 402-438): opcodes other than `sext`
and `zext` warn and skip; a source width of 1 (Boolean) copies the
operand's shadow without any runtime call; otherwise the matching
`_sym_build_sext`/`_sym_build_zext` is called with the operand's shadow and
the number of bits added. -/
def visitCastInst (pb id : Nat) (op : CastOp) (v : Value) (srcW dstW : Nat)
    (s : EmitState) : Option EmitState :=
  if op ≠ CastOp.sext ∧ op ≠ CastOp.zext then some (warn s warningUnhandledCast)
  else if srcW = 1 then
    match getOrCreateSymbolicExpression pb v (Pos.before id) s with
    | none => none
    | some (e, s1) => some (cacheSet s1 (Value.inst id) e)
  else
    let target := if op = CastOp.sext then buildSExtName else buildZExtName
    match getOrCreateSymbolicExpression pb v (Pos.before id) s with
    | none => none
    | some (e, s1) =>
        let p := emitCall s1 target
          [e, Value.constInt 8 (dstW - srcW)] (Pos.before id)
        some (cacheSet p.2 (Value.inst id) p.1)

/-- `Symbolizer::visitAllocaInst` (lines 360-370): a missing or non-one
array size warns and skips; otherwise a sibling stack slot of the shadow
type is allocated and recorded (an allocated type without an expression
type would hit `llvm_unreachable` inside `expressionType`). -/
def visitAllocaInst (id : Nat) (ty : MTy) (arraySize : Value)
    (s : EmitState) : Option EmitState :=
  if isConstOne arraySize = false then some (warn s warningStackArrays)
  else
    match expressionType ty with
    | none => none
    | some et =>
        let p := emitAlloca s et (Pos.before id)
        some (cacheSet p.2 (Value.inst id) p.1)

/-- The `for (Use &arg : I.args())` loop of `visitCallInst` (lines
346-351): for each argument, resolve it and emit
`_sym_set_parameter_expression(argNo, bitcast-to-i8ptr(shadow))` before the
call.  Shadow handles already have type `i8*`, so the bitcast folds away. -/
def setParams (pb id : Nat) : List (Nat × Value) → EmitState → Option EmitState
  | [], s => some s
  | (i, a) :: rest, s =>
      match getOrCreateSymbolicExpression pb a (Pos.before id) s with
      | none => none
      | some (ea, s1) =>
          let p := emitCall s1 setParameterExpressionName
            [Value.constInt 8 i, ea] (Pos.before id)
          setParams pb id rest p.2

/-- `Symbolizer::visitCallInst` (lines 303-358).  Indirect calls warn and
return; `_sym_`-prefixed callees other than `_sym_build_variable` are the
instrumentation itself and are skipped; the `lifetime` intrinsics are
silent no-ops; `memcpy` resolves the shadow expressions of destination and
source (discarding both), then emits `_sym_memcpy(I.getOperand(0),
I.getOperand(2))` — two arguments, the concrete destination pointer and the
length; other intrinsics warn; any remaining direct call gets its
parameter expressions set (unless the callee is `_sym_build_variable`) and,
at the next non-debug instruction, `_sym_get_return_expression()` recorded
as its shadow — regardless of the callee's return type, which the source
never inspects. -/
def visitCallInst (pb id : Nat) (callee : Option Callee) (args : List Value)
    (_retTy : MTy) (s : EmitState) : Option EmitState :=
  match callee with
  | none => some (warn s warningIndirectCall)
  | some c =>
    if c.name ≠ symBuildVariableName ∧ startsWithSym c.name = true then some s
    else
      match c.intr with
      | some .lifetimeStart => some s
      | some .lifetimeEnd => some s
      | some .memcpy =>
          match args with
          | dst :: src :: len :: _ =>
              match getOrCreateSymbolicExpression pb dst (Pos.before id) s with
              | none => none
              | some (_destExpr, s1) =>
                  match getOrCreateSymbolicExpression pb src (Pos.before id) s1 with
                  | none => none
                  | some (_srcExpr, s2) =>
                      let p := emitCall s2 symMemcpyName [dst, len] (Pos.before id)
                      some p.2
          | _ => none
      | some .otherIntr => some (warn s (warningUnhandledIntrinsic c.name))
      | none =>
          match
            (if c.name = symBuildVariableName then some s
             else setParams pb id args.enum s) with
          | none => none
          | some s1 =>
              let p := emitCall s1 getReturnExpressionName [] (Pos.after id)
              some (cacheSet p.2 (Value.inst id) p.1)

/-- `Symbolizer::visitInstruction` (lines 462-464), the `InstVisitor`
fallback: warn and change nothing else. -/
def visitInstruction (s : EmitState) : EmitState :=
  warn s warningUnknownInstruction

/-- The `InstVisitor` dispatch over the modelled instruction forms. -/
def visitInstr (pb : Nat) (I : Instr) (s : EmitState) : Option EmitState :=
  match I with
  | .binop id op a b => visitBinaryOperator pb id op a b s
  | .gep id base idxs => visitGetElementPtrInst pb id base idxs s
  | .trunc id v dstW => some (visitTruncInst id v dstW s)
  | .cast id op v srcW dstW => visitCastInst pb id op v srcW dstW s
  | .bitcast id v sp dp => visitBitCastInst pb id v sp dp s
  | .call id callee args retTy => visitCallInst pb id callee args retTy s
  | .alloca id ty n => visitAllocaInst id ty n s
  | .other _id => some (visitInstruction s)

/-- `symbolizer.visit(F)`: visit the function's instructions in program
order, threading the state; a failed assertion aborts the run. -/
def runSymbolizer (pb : Nat) : List Instr → EmitState → Option EmitState
  | [], s => some s
  | i :: rest, s =>
      match visitInstr pb i s with
      | none => none
      | some s1 => runSymbolizer pb rest s1

/-!  Module initialization (`SymbolizePass::doInitialization`). -/

/-- The signature under which `M.getOrInsertFunction` declares a runtime
function: name, return type, parameter types. -/
structure FnDecl where
  name : String
  retTy : MTy
  params : List MTy

/-- The runtime-function declarations inserted into the module by
`doInitialization` (lines 516-585), in source order.  `ptrT` is written
`MTy.ptr`; every LLVM pointer type (`i8*`, `i8**`, `iN*`) collapses to the
same `MTy.ptr`.  `intPtrTy` is the pointer-sized integer type from the data
layout.  Note the declaration of `_sym_push_path_constraint` on lines
523-524: its *return* type is `ptrT`, and its parameters are
`(ptrT, Int1Ty)`. -/
def runtimeDeclarations (intPtrTy : MTy) : List FnDecl :=
  [ { name := buildIntegerName, retTy := .ptr, params := [.int 64, .int 8] },
    { name := buildNullPointerName, retTy := .ptr, params := [] },
    { name := buildNegName, retTy := .ptr, params := [.ptr] },
    { name := buildSExtName, retTy := .ptr, params := [.ptr, .int 8] },
    { name := buildZExtName, retTy := .ptr, params := [.ptr, .int 8] },
    { name := buildTruncName, retTy := .ptr, params := [.ptr, .int 8] },
    { name := pushPathConstraintName, retTy := .ptr, params := [.ptr, .int 1] },
    { name := setParameterExpressionName, retTy := .void, params := [.int 8, .ptr] },
    { name := getParameterExpressionName, retTy := .ptr, params := [.int 8] },
    { name := setReturnExpressionName, retTy := .void, params := [.ptr] },
    { name := getReturnExpressionName, retTy := .ptr, params := [] },
    { name := buildAddName, retTy := .ptr, params := [.ptr, .ptr] },
    { name := buildSubName, retTy := .ptr, params := [.ptr, .ptr] },
    { name := buildMulName, retTy := .ptr, params := [.ptr, .ptr] },
    { name := buildUDivName, retTy := .ptr, params := [.ptr, .ptr] },
    { name := buildSDivName, retTy := .ptr, params := [.ptr, .ptr] },
    { name := buildURemName, retTy := .ptr, params := [.ptr, .ptr] },
    { name := buildSRemName, retTy := .ptr, params := [.ptr, .ptr] },
    { name := buildShlName, retTy := .ptr, params := [.ptr, .ptr] },
    { name := buildLShrName, retTy := .ptr, params := [.ptr, .ptr] },
    { name := buildAShrName, retTy := .ptr, params := [.ptr, .ptr] },
    { name := buildAndName, retTy := .ptr, params := [.ptr, .ptr] },
    { name := buildOrName, retTy := .ptr, params := [.ptr, .ptr] },
    { name := buildXorName, retTy := .ptr, params := [.ptr, .ptr] },
    { name := buildEqualName, retTy := .ptr, params := [.ptr, .ptr] },
    { name := buildNotEqualName, retTy := .ptr, params := [.ptr, .ptr] },
    { name := buildUGTName, retTy := .ptr, params := [.ptr, .ptr] },
    { name := buildUGEName, retTy := .ptr, params := [.ptr, .ptr] },
    { name := buildULTName, retTy := .ptr, params := [.ptr, .ptr] },
    { name := buildULEName, retTy := .ptr, params := [.ptr, .ptr] },
    { name := buildSGTName, retTy := .ptr, params := [.ptr, .ptr] },
    { name := buildSGEName, retTy := .ptr, params := [.ptr, .ptr] },
    { name := buildSLTName, retTy := .ptr, params := [.ptr, .ptr] },
    { name := buildSLEName, retTy := .ptr, params := [.ptr, .ptr] },
    { name := initializeArray8Name, retTy := .void, params := [.ptr, .ptr, .int 64] },
    { name := initializeArray16Name, retTy := .void, params := [.ptr, .ptr, .int 64] },
    { name := initializeArray32Name, retTy := .void, params := [.ptr, .ptr, .int 64] },
    { name := initializeArray64Name, retTy := .void, params := [.ptr, .ptr, .int 64] },
    { name := symMemcpyName, retTy := .void, params := [.ptr, .ptr, intPtrTy] } ]

/-- Look a declaration up by name, as a linker or verifier would. -/
def findDecl (n : String) : List FnDecl → Option FnDecl
  | [] => none
  | d :: rest => if d.name = n then some d else findDecl n rest

/-- Linkage kinds, copied verbatim from source global to shadow global. -/
inductive Linkage where
  | external
  | internal
  | privateL
  | common
  | weakAny
  | linkonceAny
deriving DecidableEq, Repr

/-- Module-level constants, as far as initializers are concerned. -/
inductive ConstVal where
  | intC (w : Nat) (v : Nat)
  | nullPtrC
  | floatZeroC
  | arrC (elems : List ConstVal)
  | structC (fields : List ConstVal)

mutual

/-- `Constant::getNullValue` on the types `expressionType` can produce
(the `void`/`other` arms are unreachable there and map to a dummy zero). -/
def nullValueOf : MTy → ConstVal
  | .int w => .intC w 0
  | .ptr => .nullPtrC
  | .float => .floatZeroC
  | .arr n t => .arrC (List.replicate n (nullValueOf t))
  | .strct fs => .structC (nullValueOfList fs)
  | .void => .intC 0 0
  | .other => .intC 0 0

/-- Field-wise `Constant::getNullValue`. -/
def nullValueOfList : List MTy → List ConstVal
  | [] => []
  | t :: ts => nullValueOf t :: nullValueOfList ts
end

/-- A module global variable, with the fields the pass reads
(`getValueType`, `getLinkage`, `getName`, and constness) and the fields
`new GlobalVariable(...)` sets (the same, plus the initializer). -/
structure GlobalVar where
  name : String
  valueType : MTy
  isConstant : Bool
  linkage : Linkage
  init : ConstVal

/-- Creation of the shadow global for one module global (lines 589-597):
`new GlobalVariable(M, exprType, /-isConstant=-/ false, global.getLinkage(),
Constant::getNullValue(exprType), global.getName() + ".sym_expr", &global)`.
An `expressionType` failure is the `llvm_unreachable` abort. -/
def shadowGlobalFor (g : GlobalVar) : Option GlobalVar :=
  match expressionType g.valueType with
  | none => none
  | some exprTy =>
      some { name := g.name ++ shadowSuffix,
             valueType := exprTy,
             isConstant := false,
             linkage := g.linkage,
             init := nullValueOf exprTy }

/-- The `for (auto &global : M.globals())` loop filling
`globalExpressions`: each global is paired with its freshly created shadow
global. -/
def createGlobalExpressions : List GlobalVar → Option (List (GlobalVar × GlobalVar))
  | [] => some []
  | g :: rest =>
      match shadowGlobalFor g with
      | none => none
      | some sh =>
          match createGlobalExpressions rest with
          | none => none
          | some tail => some ((g, sh) :: tail)

/-!  Helper predicates over the emitted shadow instructions. -/

/-- Whether an inserted instruction is a call to the named function. -/
def isCallTo (n : String) : ShadowInst → Bool
  | .call _ callee _ _ => callee == n
  | _ => false

/-- Whether an inserted call builds the integer constant `v` (its first
argument is the 64-bit constant `v`). -/
def isBuildIntegerOf (v : Nat) : ShadowInst → Bool
  | .call _ callee (a :: _) _ => callee == buildIntegerName && a == Value.constInt 64 v
  | _ => false

/-- Whether an inserted instruction sits at the entry-block insertion
point. -/
def atEntry : ShadowInst → Bool
  | .call _ _ _ p => p == Pos.entry
  | .allocaInst _ _ p => p == Pos.entry

/-!  Claim C1. -/

/-- A state in which the operand `%5` of the truncate instruction already
has a symbolic expression (`shadow 0`) in the shadow map. -/
def c1State : EmitState :=
  { cache := [(Value.inst 5, Value.shadow 0)], out := [], warnings := [], nextId := 1 }

/-- Claim C1 (code evaluated at the failing input): instrumenting
`%7 = trunc %5 to i8` inserts `_sym_build_trunc(%5, 8)` whose *first
argument is the concrete operand `%5` itself*, even though the shadow map
resolves `%5` to the symbolic expression `shadow 0`; the claimed call
`_sym_build_trunc(resolve(%5), 8)` is not what the code emits. -/
theorem c1_trunc_passes_concrete_operand :
    visitTruncInst 7 (Value.inst 5) 8 c1State =
      { cache := [(Value.inst 7, Value.shadow 1), (Value.inst 5, Value.shadow 0)],
        out := [ShadowInst.call (Value.shadow 1) buildTruncName
          [Value.inst 5, Value.constInt 8 8] (Pos.before 7)],
        warnings := [], nextId := 2 } ∧
    getOrCreateSymbolicExpression 64 (Value.inst 5) (Pos.before 7) c1State =
      some (Value.shadow 0, c1State) ∧
    Value.inst 5 ≠ Value.shadow 0 :=
  ⟨rfl, rfl, by decide⟩

/-!  Claim C2. -/

/-- The mangled name of the memcpy intrinsic as it appears in modules. -/
def memcpyIntrinsicName : String := "llvm.memcpy.p0i8.p0i8.i64"

/-- A state in which the memcpy destination `%1` and source `%2` already
have symbolic expressions. -/
def c2State : EmitState :=
  { cache := [(Value.inst 1, Value.shadow 0), (Value.inst 2, Value.shadow 1)],
    out := [], warnings := [], nextId := 2 }

/-- Claim C2 (code evaluated at the failing input): instrumenting
`call @llvm.memcpy(%1, %2, 8, false)` emits a `_sym_memcpy` call with *two*
arguments — the concrete destination `%1` and the length — while the
module declaration of `_sym_memcpy` inserted by `doInitialization` has
*three* parameters `(ptr, ptr, uptr)`.  The call does not conform to the
declared ABI signature. -/
theorem c2_memcpy_call_has_two_arguments :
    visitCallInst 64 9 (some { name := memcpyIntrinsicName, intr := some Intrinsic.memcpy })
        [Value.inst 1, Value.inst 2, Value.constInt 64 8, Value.constInt 1 0]
        MTy.void c2State =
      some { cache := [(Value.inst 1, Value.shadow 0), (Value.inst 2, Value.shadow 1)],
             out := [ShadowInst.call (Value.shadow 2) symMemcpyName
               [Value.inst 1, Value.constInt 64 8] (Pos.before 9)],
             warnings := [], nextId := 3 } ∧
    [Value.inst 1, Value.constInt 64 8].length = 2 ∧
    findDecl symMemcpyName (runtimeDeclarations (MTy.int 64)) =
      some { name := symMemcpyName, retTy := MTy.void,
             params := [MTy.ptr, MTy.ptr, MTy.int 64] } ∧
    ([MTy.ptr, MTy.ptr, MTy.int 64] : List MTy).length = 3 :=
  ⟨rfl, rfl, rfl, rfl⟩

/-!  Claim C3. -/

/-- Claim C3, counterexample: instrumenting the one-argument call
`%3 = call @_sym_build_variable(%arg0)` emits *no*
`_sym_set_parameter_expression` call at all — only the
`_sym_get_return_expression()` pickup — refuting the claim that every
argument of a `_sym_build_variable` call gets a parameter-expression
store. -/
theorem c3_build_variable_skips_parameter_shadows :
    ∃ S, visitCallInst 64 3 (some { name := symBuildVariableName, intr := none })
        [Value.arg 0] MTy.ptr emptyState = some S ∧
      S.out = [ShadowInst.call (Value.shadow 0) getReturnExpressionName [] (Pos.after 3)] ∧
      (S.out.filter (isCallTo setParameterExpressionName)).length = 0 :=
  ⟨_, rfl, rfl, rfl⟩

/-- Claim C3 (amended): a direct call to `_sym_build_variable` is
preserved and treated like a user call on the return side only: the
rewriter emits *no* `_sym_set_parameter_expression` calls for its
arguments (the argument loop is guarded by `!isBuildVariable`), and after
the call it emits `_sym_get_return_expression()` at the next non-debug
instruction and records the result as the call's shadow. -/
theorem c3_build_variable_return_shadow_only (pb id : Nat) (args : List Value)
    (retTy : MTy) (s : EmitState) :
    visitCallInst pb id (some { name := symBuildVariableName, intr := none })
        args retTy s =
      some { cache := (Value.inst id, Value.shadow s.nextId) :: s.cache,
             out := s.out ++ [ShadowInst.call (Value.shadow s.nextId)
               getReturnExpressionName [] (Pos.after id)],
             warnings := s.warnings,
             nextId := s.nextId + 1 } :=
  rfl

/-!  Claim C8. -/

/-- Claim C8, counterexample: the module declaration of
`_sym_push_path_constraint` produced by `doInitialization` (with the usual
64-bit pointer-sized integer type) has parameter types `(ptr, i1)` but
*return type `ptr`*, not void — `M.getOrInsertFunction` is passed `ptrT`
as the result type on lines 523-524. -/
theorem c8_push_path_constraint_returns_ptr :
    findDecl pushPathConstraintName (runtimeDeclarations (MTy.int 64)) =
      some { name := pushPathConstraintName, retTy := MTy.ptr,
             params := [MTy.ptr, MTy.int 1] } ∧
    MTy.ptr ≠ MTy.void :=
  ⟨rfl, fun h => MTy.noConfusion h⟩

/-- Claim C8 (amended): for any data layout, `_sym_push_path_constraint`
is declared on the module with parameter types (opaque pointer, 1-bit
integer) and return type opaque pointer (`i8*`), not void. -/
theorem c8_push_path_constraint_declaration (intPtrTy : MTy) :
    findDecl pushPathConstraintName (runtimeDeclarations intPtrTy) =
      some { name := pushPathConstraintName, retTy := MTy.ptr,
             params := [MTy.ptr, MTy.int 1] } :=
  rfl

/-!  Claim C4. -/

/-- Claim C4, counterexample: visiting the floating-point binary operator
`%1 = fadd %arg0, %arg1` does not warn-and-skip — the handler table has no
entry for `fadd`, so `assert(handler && "Unable to handle binary
operator")` fails and the rewriter aborts (result `none`), refuting "it
never aborts on such a construct". -/
theorem c4_fp_binop_aborts :
    visitInstr 64 (Instr.binop 1 BinOp.fadd (Value.arg 0) (Value.arg 1)) emptyState
      = none :=
  rfl

/-- Claim C4 (amended): indirect calls, non-unit stack allocations,
unknown (non-lifetime, non-memcpy) intrinsics, casts other than sext/zext
that reach the generic cast visitor, and unknown instruction opcodes each
cause exactly a warning diagnostic, leave the shadow map unchanged for the
result, and do not abort; floating-point binary operators, however, fail
an assertion instead of warning (see the counterexample). -/
theorem c4_unsupported_constructs_warn_and_skip (pb id srcW dstW : Nat)
    (args : List Value) (retTy ty : MTy) (n v : Value) (nm : String)
    (op : CastOp) (s : EmitState) :
    visitInstr pb (Instr.call id none args retTy) s
        = some (warn s warningIndirectCall) ∧
    (isConstOne n = false →
      visitInstr pb (Instr.alloca id ty n) s = some (warn s warningStackArrays)) ∧
    (startsWithSym nm = false →
      visitInstr pb (Instr.call id (some { name := nm, intr := some Intrinsic.otherIntr })
          args retTy) s
        = some (warn s (warningUnhandledIntrinsic nm))) ∧
    (op ≠ CastOp.sext → op ≠ CastOp.zext →
      visitInstr pb (Instr.cast id op v srcW dstW) s
        = some (warn s warningUnhandledCast)) ∧
    visitInstr pb (Instr.other id) s = some (warn s warningUnknownInstruction) := by
  refine ⟨rfl, ?_, ?_, ?_, rfl⟩
  · intro h
    simp [visitInstr, visitAllocaInst, h]
  · intro h
    simp [visitInstr, visitCallInst, h]
  · intro h1 h2
    simp [visitInstr, visitCastInst, h1, h2]

/-- An intrinsic without a dedicated arm in `visitCallInst`. -/
def fabsIntrinsicName : String := "llvm.fabs.f64"

/-- Witness for the amended C4 theorem: the five categories at concrete
inputs — an indirect call, `%1 = alloca i32, i8 2`, a call to the intrinsic
`llvm.fabs.f64`, the cast `%1 = fptosi double %arg0 to i32`, and an
unmodelled opcode — all warn and skip on the empty state. -/
theorem c4_unsupported_constructs_warn_and_skip_witness :
    visitInstr 64 (Instr.call 1 none [] MTy.void) emptyState
        = some (warn emptyState warningIndirectCall) ∧
    visitInstr 64 (Instr.alloca 1 (MTy.int 32) (Value.constInt 8 2)) emptyState
        = some (warn emptyState warningStackArrays) ∧
    visitInstr 64 (Instr.call 1 (some ⟨fabsIntrinsicName, some Intrinsic.otherIntr⟩)
        [] MTy.void) emptyState
        = some (warn emptyState (warningUnhandledIntrinsic fabsIntrinsicName)) ∧
    visitInstr 64 (Instr.cast 1 CastOp.fptosi (Value.arg 0) 64 32) emptyState
        = some (warn emptyState warningUnhandledCast) ∧
    visitInstr 64 (Instr.other 1) emptyState
        = some (warn emptyState warningUnknownInstruction) := by
  have h := c4_unsupported_constructs_warn_and_skip 64 1 64 32 []
    MTy.void (MTy.int 32) (Value.constInt 8 2) (Value.arg 0)
    fabsIntrinsicName CastOp.fptosi emptyState
  exact ⟨h.1, h.2.1 (by decide), h.2.2.1 (by decide),
    h.2.2.2.1 (by decide) (by decide), h.2.2.2.2⟩

/-!  Claim C5. -/

/-- The function used to refute constant hoisting:
`%10 = add i64 %arg0, 4` followed by `%11 = getelementptr i32, ptr %arg1,
i64 %arg2` (an array-style index with element alloc size 4 at a 64-bit
data layout). -/
def c5Program : List Instr :=
  [Instr.binop 10 BinOp.add (Value.arg 0) (Value.constInt 64 4),
   Instr.gep 11 (Value.arg 1) [GepIdx.arrayIdx (Value.arg 2) 4]]

/-- Claim C5, counterexample: in the rewritten output of `c5Program`, the
integer constant 4 — referenced by the `add` — is built by *two*
`_sym_build_integer` calls, not exactly one: the operand resolution hoists
one call to the entry block, but the GEP instrumentation emits a second,
uncached call for the element size 4 at the GEP's own position, outside
the entry block. -/
theorem c5_gep_duplicates_constant :
    ∃ S, runSymbolizer 64 c5Program emptyState = some S ∧
      (S.out.filter (isBuildIntegerOf 4)).length = 2 ∧
      (S.out.filter (fun si => isBuildIntegerOf 4 si && atEntry si)).length = 1 :=
  ⟨_, rfl, rfl, rfl⟩

/-- The state produced by hoisting the integer constant `c_w v` to the
entry block: one `_sym_build_integer` call placed at the entry-block
insertion point, and the constant cached in the shadow map. -/
def hoistedState (s : EmitState) (w v : Nat) : EmitState :=
  { s with
    cache := (Value.constInt w v, Value.shadow s.nextId) :: s.cache,
    out := s.out ++ [ShadowInst.call (Value.shadow s.nextId) buildIntegerName
      [Value.constInt 64 v, Value.constInt 8 w] Pos.entry],
    nextId := s.nextId + 1 }

/-- Claim C5 (amended): an integer constant resolved as an operand through
`getOrCreateSymbolicExpression` gets exactly one `_sym_build_integer` call
from that resolution, placed at the entry block after all φ-nodes, and is
cached so a later resolution reuses the same handle and emits nothing; the
GEP instrumentation, however, separately emits fresh, uncached
`_sym_build_integer` calls for struct member offsets (and element sizes)
at the GEP's own position, so the same constant may receive additional
calls outside the entry block. -/
theorem c5_constant_hoisting_resolve_only (pb w v k off : Nat)
    (pos pos2 gpos : Pos) (s t : EmitState) (base b : Value)
    (hc : cacheGet s (Value.constInt w v) = none)
    (hb : cacheGet t base = some b) :
    (getOrCreateSymbolicExpression pb (Value.constInt w v) pos s =
       some (Value.shadow s.nextId, hoistedState s w v) ∧
     getOrCreateSymbolicExpression pb (Value.constInt w v) pos2 (hoistedState s w v) =
       some (Value.shadow s.nextId, hoistedState s w v)) ∧
    handleGEPOperator pb base [GepIdx.structField k off] gpos t =
      some (Value.shadow (t.nextId + 1),
        { t with
          out := t.out ++ [ShadowInst.call (Value.shadow t.nextId) buildIntegerName
              [Value.constInt 64 off, Value.constInt 64 pb] gpos,
            ShadowInst.call (Value.shadow (t.nextId + 1)) buildAddName
              [b, Value.shadow t.nextId] gpos],
          nextId := t.nextId + 2 }) := by
  have h2 : cacheGet (hoistedState s w v) (Value.constInt w v) =
      some (Value.shadow s.nextId) := by
    simp [cacheGet, hoistedState, lookupAssoc]
  refine ⟨⟨?_, ?_⟩, ?_⟩
  · simp only [getOrCreateSymbolicExpression]
    rw [hc]
    rfl
  · simp only [getOrCreateSymbolicExpression]
    rw [h2]
  · simp only [handleGEPOperator, getOrCreateSymbolicExpression]
    rw [hb]
    simp [handleGEPIndices, emitCall]

/-- A state in which the GEP base pointer `%1` already has a symbolic
expression. -/
def c5bState : EmitState :=
  { cache := [(Value.inst 1, Value.shadow 0)], out := [], warnings := [], nextId := 1 }

/-- Witness for the amended C5 theorem: resolving the constant `i32 7`
twice on the empty state emits a single entry-block `_sym_build_integer`
and reuses it, while a struct-field GEP (offset 8) over the cached base
`%1` emits a fresh `_sym_build_integer` at the GEP's position. -/
theorem c5_constant_hoisting_resolve_only_witness :
    (getOrCreateSymbolicExpression 64 (Value.constInt 32 7) (Pos.before 5) emptyState =
       some (Value.shadow 0, hoistedState emptyState 32 7) ∧
     getOrCreateSymbolicExpression 64 (Value.constInt 32 7) (Pos.before 9)
         (hoistedState emptyState 32 7) =
       some (Value.shadow 0, hoistedState emptyState 32 7)) ∧
    handleGEPOperator 64 (Value.inst 1) [GepIdx.structField 1 8] (Pos.before 6) c5bState =
      some (Value.shadow 2,
        { cache := [(Value.inst 1, Value.shadow 0)],
          out := [ShadowInst.call (Value.shadow 1) buildIntegerName
              [Value.constInt 64 8, Value.constInt 64 64] (Pos.before 6),
            ShadowInst.call (Value.shadow 2) buildAddName
              [Value.shadow 0, Value.shadow 1] (Pos.before 6)],
          warnings := [], nextId := 3 }) :=
  c5_constant_hoisting_resolve_only 64 32 7 1 8 (Pos.before 5) (Pos.before 9)
    (Pos.before 6) emptyState c5bState (Value.inst 1) (Value.shadow 0) rfl rfl

/-!  Claim C6. -/

/-- The state change of one null-pointer resolution: a fresh
`_sym_build_null_pointer()` call at the requested position, with the
shadow map untouched. -/
def nullStep (s : EmitState) (pos : Pos) : EmitState :=
  { s with
    out := s.out ++ [ShadowInst.call (Value.shadow s.nextId) buildNullPointerName [] pos],
    nextId := s.nextId + 1 }

/-- Claim C6: resolving the null-pointer constant emits a fresh
`_sym_build_null_pointer()` call at the use site and never stores the
result in the shadow map — the cache after the call equals the cache
before it — so a second resolution emits a second, distinct call instead
of returning a cached value. -/
theorem c6_null_pointer_never_cached (pb1 pb2 : Nat) (pos1 pos2 : Pos)
    (s : EmitState) (h : cacheGet s Value.nullPtr = none) :
    getOrCreateSymbolicExpression pb1 Value.nullPtr pos1 s =
      some (Value.shadow s.nextId, nullStep s pos1) ∧
    (nullStep s pos1).cache = s.cache ∧
    getOrCreateSymbolicExpression pb2 Value.nullPtr pos2 (nullStep s pos1) =
      some (Value.shadow (s.nextId + 1), nullStep (nullStep s pos1) pos2) ∧
    Value.shadow (s.nextId + 1) ≠ Value.shadow s.nextId := by
  have h1 : cacheGet (nullStep s pos1) Value.nullPtr = none := h
  refine ⟨?_, rfl, ?_, ?_⟩
  · simp only [getOrCreateSymbolicExpression]
    rw [h]
    rfl
  · simp only [getOrCreateSymbolicExpression]
    rw [h1]
    rfl
  · intro hEq
    exact Nat.succ_ne_self s.nextId (Value.shadow.inj hEq)

/-- Witness for C6: two resolutions of the null pointer on the empty
state produce two distinct calls and leave the cache empty. -/
theorem c6_null_pointer_never_cached_witness :
    getOrCreateSymbolicExpression 64 Value.nullPtr (Pos.before 1) emptyState =
      some (Value.shadow 0, nullStep emptyState (Pos.before 1)) ∧
    (nullStep emptyState (Pos.before 1)).cache = emptyState.cache ∧
    getOrCreateSymbolicExpression 64 Value.nullPtr (Pos.before 2)
        (nullStep emptyState (Pos.before 1)) =
      some (Value.shadow 1, nullStep (nullStep emptyState (Pos.before 1)) (Pos.before 2)) ∧
    Value.shadow 1 ≠ Value.shadow 0 :=
  c6_null_pointer_never_cached 64 64 (Pos.before 1) (Pos.before 2) emptyState rfl

/-!  Claim C7. -/

/-- Claim C7: for a sext or zext instruction, a source width of 1 makes
the instruction's shadow exactly the operand's resolved shadow, with no
extension call inserted (the emitted-instruction list is whatever operand
resolution produced, nothing more); any other source width inserts
`_sym_build_sext`/`_sym_build_zext` with the operand's resolved shadow as
first argument and the destination width minus the source width as second
argument. -/
theorem c7_sext_zext_instrumentation (pb id srcW dstW : Nat) (op : CastOp)
    (v e : Value) (s s1 : EmitState)
    (hop : op = CastOp.sext ∨ op = CastOp.zext)
    (hres : getOrCreateSymbolicExpression pb v (Pos.before id) s = some (e, s1)) :
    (srcW = 1 →
      visitCastInst pb id op v srcW dstW s = some (cacheSet s1 (Value.inst id) e)) ∧
    (srcW ≠ 1 →
      visitCastInst pb id op v srcW dstW s =
        some (cacheSet
          { s1 with
            out := s1.out ++ [ShadowInst.call (Value.shadow s1.nextId)
              (if op = CastOp.sext then buildSExtName else buildZExtName)
              [e, Value.constInt 8 (dstW - srcW)] (Pos.before id)],
            nextId := s1.nextId + 1 }
          (Value.inst id) (Value.shadow s1.nextId))) := by
  rcases hop with rfl | rfl <;>
    refine ⟨fun h1 => ?_, fun h1 => ?_⟩ <;>
    simp [visitCastInst, hres, h1, emitCall, cacheSet]

/-- The state after resolving `%arg0` at `%2`'s position on the empty
state: one `_sym_get_parameter_expression(0)` call, cached. -/
def c7Resolved : EmitState :=
  { cache := [(Value.arg 0, Value.shadow 0)],
    out := [ShadowInst.call (Value.shadow 0) getParameterExpressionName
      [Value.constInt 8 0] (Pos.before 2)],
    warnings := [], nextId := 1 }

/-- Witness for C7: `%2 = zext i1 %arg0 to i32` copies the operand's
shadow without an extension call, while `%2 = sext i8 %arg0 to i32`
emits `_sym_build_sext(shadow, 24)`. -/
theorem c7_sext_zext_instrumentation_witness :
    visitCastInst 64 2 CastOp.zext (Value.arg 0) 1 32 emptyState =
      some (cacheSet c7Resolved (Value.inst 2) (Value.shadow 0)) ∧
    visitCastInst 64 2 CastOp.sext (Value.arg 0) 8 32 emptyState =
      some (cacheSet
        { c7Resolved with
          out := c7Resolved.out ++ [ShadowInst.call (Value.shadow 1) buildSExtName
            [Value.shadow 0, Value.constInt 8 24] (Pos.before 2)],
          nextId := 2 }
        (Value.inst 2) (Value.shadow 1)) :=
  ⟨(c7_sext_zext_instrumentation 64 2 1 32 CastOp.zext (Value.arg 0)
      (Value.shadow 0) emptyState c7Resolved (Or.inr rfl) rfl).1 rfl,
   (c7_sext_zext_instrumentation 64 2 8 32 CastOp.sext (Value.arg 0)
      (Value.shadow 0) emptyState c7Resolved (Or.inl rfl) rfl).2 (by decide)⟩

/-!  Claim C9. -/

/-- The properties `new GlobalVariable(...)` gives one shadow global. -/
theorem shadowGlobalFor_spec (g sh : GlobalVar) (h : shadowGlobalFor g = some sh) :
    sh.isConstant = false ∧ sh.name = g.name ++ shadowSuffix ∧
    sh.linkage = g.linkage ∧ expressionType g.valueType = some sh.valueType ∧
    sh.init = nullValueOf sh.valueType := by
  unfold shadowGlobalFor at h
  rcases he : expressionType g.valueType with _ | t
  · rw [he] at h; cases h
  · rw [he] at h
    injection h with h2
    subst h2
    exact ⟨rfl, rfl, rfl, rfl, rfl⟩

/-- Claim C9: every shadow global created by the `M.globals()` loop of
`doInitialization` is a non-constant (mutable) global — the `isConstant`
argument is hard-coded `false`, regardless of the source global's
constness — named by appending `".sym_expr"` to the source global's name,
carrying the source global's linkage, and initialized to the zero value
of the expression type of the source global's value type. -/
theorem c9_shadow_globals_mutable (gs : List GlobalVar)
    (ps : List (GlobalVar × GlobalVar))
    (hps : createGlobalExpressions gs = some ps) :
    ∀ p ∈ ps, p.2.isConstant = false ∧
      p.2.name = p.1.name ++ shadowSuffix ∧
      p.2.linkage = p.1.linkage ∧
      expressionType p.1.valueType = some p.2.valueType ∧
      p.2.init = nullValueOf p.2.valueType := by
  induction gs generalizing ps with
  | nil =>
      simp only [createGlobalExpressions] at hps
      injection hps with h
      subst h
      intro p hp
      cases hp
  | cons g rest ih =>
      simp only [createGlobalExpressions] at hps
      rcases hsh : shadowGlobalFor g with _ | sh
      · rw [hsh] at hps; cases hps
      · rw [hsh] at hps
        rcases htail : createGlobalExpressions rest with _ | tail
        · rw [htail] at hps; cases hps
        · rw [htail] at hps
          injection hps with h
          subst h
          intro p hp
          rcases List.mem_cons.mp hp with rfl | hp2
          · exact shadowGlobalFor_spec g sh hsh
          · exact ih tail htail p hp2

/-- A *constant* int32 global, `static const int g = 7;` style. -/
def c9g : GlobalVar :=
  { name := "g", valueType := MTy.int 32, isConstant := true,
    linkage := Linkage.internal, init := ConstVal.intC 32 7 }

/-- The shadow global the pass creates for `c9g`. -/
def c9sh : GlobalVar :=
  { name := "g" ++ shadowSuffix, valueType := MTy.ptr, isConstant := false,
    linkage := Linkage.internal, init := ConstVal.nullPtrC }

/-- Witness for C9: the module whose only global is the constant `c9g`
gets the mutable shadow global `c9sh` with all the claimed properties. -/
theorem c9_shadow_globals_mutable_witness :
    c9g.isConstant = true ∧
    c9sh.isConstant = false ∧
    c9sh.name = c9g.name ++ shadowSuffix ∧
    c9sh.linkage = c9g.linkage ∧
    expressionType c9g.valueType = some c9sh.valueType ∧
    c9sh.init = nullValueOf c9sh.valueType :=
  ⟨rfl,
   c9_shadow_globals_mutable [c9g] [(c9g, c9sh)] rfl (c9g, c9sh)
     (List.mem_singleton.mpr rfl)⟩

/-!  Claim C10. -/

/-- Claim C10: for every non-intrinsic direct call whose callee is not a
skipped `_sym_`-prefixed runtime function (including `_sym_build_variable`,
which is exempt from the skip), a successful visit is entirely independent
of the callee's return type — a void return type gives the identical
result — and ends by emitting `_sym_get_return_expression()` at the next
non-debug instruction after the call and recording its result as the
call's shadow-map entry. -/
theorem c10_return_shadow_unconditional (pb id : Nat) (nm : String)
    (args : List Value) (t1 t2 : MTy) (s S : EmitState)
    (hnm : startsWithSym nm = false ∨ nm = symBuildVariableName)
    (hrun : visitCallInst pb id (some ⟨nm, none⟩) args t1 s = some S) :
    visitCallInst pb id (some ⟨nm, none⟩) args t2 s = some S ∧
    ∃ r, S.out.getLast? = some (ShadowInst.call r getReturnExpressionName [] (Pos.after id)) ∧
      cacheGet S (Value.inst id) = some r := by
  have hskip : ¬(nm ≠ symBuildVariableName ∧ startsWithSym nm = true) := by
    rcases hnm with h | h
    · rintro ⟨_, hh⟩
      rw [h] at hh
      cases hh
    · rintro ⟨hne, _⟩
      exact hne h
  refine ⟨hrun, ?_⟩
  simp only [visitCallInst] at hrun
  rw [if_neg hskip] at hrun
  rcases hset : (if nm = symBuildVariableName then some s
      else setParams pb id args.enum s) with _ | s1
  · rw [hset] at hrun
    cases hrun
  · rw [hset] at hrun
    injection hrun with h
    subst h
    refine ⟨Value.shadow s1.nextId, ?_, ?_⟩
    · simp [cacheSet, emitCall, List.getLast?_append_cons]
    · simp [cacheGet, cacheSet, emitCall, lookupAssoc]

/-- The callee name used in the C10 witness. -/
def c10CalleeName : String := "helper"

/-- The state after instrumenting `%4 = call i32 @helper(%arg0)` on the
empty state: parameter shadow set, return shadow picked up and cached. -/
def c10S : EmitState :=
  { cache := [(Value.inst 4, Value.shadow 2), (Value.arg 0, Value.shadow 0)],
    out := [ShadowInst.call (Value.shadow 0) getParameterExpressionName
        [Value.constInt 8 0] (Pos.before 4),
      ShadowInst.call (Value.shadow 1) setParameterExpressionName
        [Value.constInt 8 0, Value.shadow 0] (Pos.before 4),
      ShadowInst.call (Value.shadow 2) getReturnExpressionName [] (Pos.after 4)],
    warnings := [], nextId := 3 }

/-- Witness for C10: the call `@helper(%arg0)`, visited once with a void
return type and once with return type i32, produces the same state `c10S`,
whose last inserted call is the return-expression pickup, cached as the
call's shadow. -/
theorem c10_return_shadow_unconditional_witness :
    visitCallInst 64 4 (some ⟨c10CalleeName, none⟩) [Value.arg 0] (MTy.int 32)
        emptyState = some c10S ∧
    ∃ r, c10S.out.getLast? = some (ShadowInst.call r getReturnExpressionName [] (Pos.after 4)) ∧
      cacheGet c10S (Value.inst 4) = some r :=
  c10_return_shadow_unconditional 64 4 c10CalleeName [Value.arg 0]
    MTy.void (MTy.int 32) emptyState c10S (Or.inl (by decide)) rfl

end Symbolize



